import Mathlib

/-!
Verification of the cpi-token-transfer program
(`src/programs/cpi-token-transfer/src/lib.rs`).

The program orchestrates SPL-token transfers: a plain transfer, a
fee-splitting transfer, vault deposits, and PDA-authorized vault
withdrawals.  We embed it shallowly:

* identities (`Pubkey`) are an inductive type whose `derived`
  constructor models program-address derivation (`hash(seedTag, owner,
  bump)`); the constructor is injective, matching the spec's assumption
  that distinct derivation inputs yield distinct identities;
* `u64` quantities are `Nat` together with explicit `≤ U64_MAX` checks
  exactly where the source uses checked arithmetic;
* each instruction is a total function returning `Except`: the Anchor
  account constraints are checked first, in field-declaration order, and
  then the handler body runs, mirroring the source line by line;
* the SPL token program (the Token Ledger Interface) is an external
  collaborator, modelled from the spec's stated contract;
* a chain-level `exec` runs one instruction against the persisted state
  (the protocol config plus the addressed token accounts), with the
  host's transactional atomicity modelled by `applyInstr`.
-/

namespace CpiTokenTransfer

/-- Identities (public keys).  `key n` is an ordinary key;
`derived seedTag owner bump` is the program-derived identity
`hash(seedTag, owner, bump)`, modelled as a free constructor, so
distinct derivation inputs give distinct identities. -/
inductive Pubkey where
  | key : Nat → Pubkey
  | derived : String → Pubkey → Nat → Pubkey
deriving DecidableEq

/-- `const PROTOCOL_FEE_BPS: u64 = 100;` (lib.rs line 7). -/
def PROTOCOL_FEE_BPS : Nat := 100

/-- `const BPS_DENOMINATOR: u64 = 10000;` (lib.rs line 8). -/
def BPS_DENOMINATOR : Nat := 10000

/-- `const PROTOCOL_CONFIG_SEED: &[u8] = b"protocol_config";` (line 11). -/
def PROTOCOL_CONFIG_SEED : String := "protocol_config"

/-- `const VAULT_AUTHORITY_SEED: &[u8] = b"vault_authority";` (line 12). -/
def VAULT_AUTHORITY_SEED : String := "vault_authority"

/-- The SPL token program id (`anchor_spl::token::ID`), an opaque
distinguished constant in the model. -/
def TOKEN_PROGRAM_ID : Pubkey := Pubkey.key 999999

/-- Largest value of a 64-bit unsigned integer. -/
def U64_MAX : Nat := 2 ^ 64 - 1

/-- Modelled from the spec: the canonical disambiguator ("bump") chosen
by address derivation (`find_program_address`).  In this model every
bump derives successfully, so the canonical choice is the fixed maximal
value 255, as on the real platform's first candidate. -/
def CANONICAL_BUMP : Nat := 255

/-- An SPL token account as referenced by the program: owner, mint and
balance (lib.rs uses `anchor_spl::token::TokenAccount`). -/
structure TokenAcc where
  owner : Pubkey
  mint : Pubkey
  amount : Nat
deriving DecidableEq

/-- The `ProtocolConfig` account (lib.rs lines 324–335). -/
structure ProtocolConfig where
  authority : Pubkey
  fee_recipient : Pubkey
  fee_bps : Nat
  bump : Nat
deriving DecidableEq

/-- The program's error enum `CpiError` (lib.rs lines 337–349). -/
inductive CpiError where
  | Unauthorized
  | InvalidMint
  | InsufficientBalance
  | InvalidProgram
  | Overflow
deriving DecidableEq

/-- Errors observable from one instruction: a program `CpiError`, an
Anchor seeds-constraint violation, a missing account (host level), or
an attempt to re-create the singleton config (host account-creation
semantics, to which the spec delegates). -/
inductive ProgError where
  | cpi : CpiError → ProgError
  | constraintSeeds
  | accountNotFound
  | configExists
deriving DecidableEq

/-- One call to the Token Ledger Interface: source and destination
account snapshots at call time, the authorizing identity, and the
amount moved. -/
structure Leg where
  src : TokenAcc
  dst : TokenAcc
  authorizedBy : Pubkey
  amount : Nat
deriving DecidableEq

/-- `u64::checked_mul`: `none` when the product leaves the 64-bit range. -/
def checked_mul (a b : Nat) : Option Nat :=
  if a * b ≤ U64_MAX then some (a * b) else none

/-- `u64::checked_div`: `none` exactly on division by zero. -/
def checked_div (a b : Nat) : Option Nat :=
  if b = 0 then none else some (a / b)

/-- `u64::checked_sub`: `none` when the subtrahend exceeds the minuend. -/
def checked_sub (a b : Nat) : Option Nat :=
  if b ≤ a then some (a - b) else none

/-- The fee computation of `transfer_with_fee` (lib.rs lines 79–85):
`amount.checked_mul(PROTOCOL_FEE_BPS).ok_or(Overflow)?
       .checked_div(BPS_DENOMINATOR).ok_or(Overflow)?` and then
`recipient_amount = amount.checked_sub(fee).ok_or(Overflow)?`. -/
def compute_fee (amount : Nat) : Except CpiError (Nat × Nat) :=
  match checked_mul amount PROTOCOL_FEE_BPS with
  | none => .error CpiError.Overflow
  | some m =>
    match checked_div m BPS_DENOMINATOR with
    | none => .error CpiError.Overflow
    | some fee =>
      match checked_sub amount fee with
      | none => .error CpiError.Overflow
      | some recipient_amount => .ok (fee, recipient_amount)

/-- Modelled from the spec: the Token Ledger Interface (the SPL token
program, an external collaborator, not part of `src/`):
`transfer(from, to, authorizedBy, amount)` fails if `authorizedBy`
does not match the source account's owner, or if `amount` exceeds the
source balance; otherwise it moves `amount` from source to
destination. -/
def ledgerTransfer (src dst : TokenAcc) (authorizedBy : Pubkey) (amount : Nat) :
    Except CpiError (TokenAcc × TokenAcc) :=
  if authorizedBy ≠ src.owner then .error CpiError.Unauthorized
  else if src.amount < amount then .error CpiError.InsufficientBalance
  else .ok ({ src with amount := src.amount - amount },
            { dst with amount := dst.amount + amount })

/- ### Arithmetic helper lemmas -/

theorem fee_le_amount (amount : Nat) : amount * PROTOCOL_FEE_BPS / BPS_DENOMINATOR ≤ amount := by
  have h1 : amount * PROTOCOL_FEE_BPS / BPS_DENOMINATOR ≤ amount * PROTOCOL_FEE_BPS / PROTOCOL_FEE_BPS := by
    apply Nat.div_le_div_left
    · simp [PROTOCOL_FEE_BPS, BPS_DENOMINATOR]
    · simp [PROTOCOL_FEE_BPS]
  have h2 : amount * PROTOCOL_FEE_BPS / PROTOCOL_FEE_BPS = amount :=
    Nat.mul_div_cancel amount (by simp [PROTOCOL_FEE_BPS])
  omega

theorem compute_fee_ok_of_no_overflow (amount : Nat)
    (h : amount * PROTOCOL_FEE_BPS ≤ U64_MAX) :
    compute_fee amount
      = .ok (amount * PROTOCOL_FEE_BPS / BPS_DENOMINATOR,
             amount - amount * PROTOCOL_FEE_BPS / BPS_DENOMINATOR) := by
  have hfee : amount * PROTOCOL_FEE_BPS / 10000 ≤ amount := fee_le_amount amount
  simp only [compute_fee, checked_mul, checked_div, checked_sub, if_pos h]
  simp [BPS_DENOMINATOR, hfee]

theorem compute_fee_overflow (amount : Nat)
    (h : U64_MAX < amount * PROTOCOL_FEE_BPS) :
    compute_fee amount = .error CpiError.Overflow := by
  simp only [compute_fee, checked_mul]
  rw [if_neg (by omega)]

/- ### The five instructions (lib.rs lines 19–193), Anchor constraints
included in field-declaration order. -/

/-- `initialize` (lib.rs lines 19–28): builds the singleton config with
`fee_bps = PROTOCOL_FEE_BPS` and the config PDA's bump.  Creation /
"already exists" semantics live at the chain level (`exec`). -/
def initConfig (authority fee_recipient : Pubkey) (bump : Nat) : ProtocolConfig :=
  { authority := authority
    fee_recipient := fee_recipient
    fee_bps := PROTOCOL_FEE_BPS
    bump := bump }

/-- `transfer_tokens` (lib.rs lines 32–59) together with the
`TransferTokens` account constraints (lines 216–235): the `from.owner ==
user` constraint (`Unauthorized`), the token-program address constraint
(`InvalidProgram`), then the handler's balance and mint checks and the
single CPI transfer authorized by `user`. -/
def transfer_tokens (user : Pubkey) (fromAcc toAcc : TokenAcc)
    (token_program : Pubkey) (amount : Nat) :
    Except ProgError ((TokenAcc × TokenAcc) × List Leg) :=
  if fromAcc.owner ≠ user then .error (ProgError.cpi CpiError.Unauthorized)
  else if token_program ≠ TOKEN_PROGRAM_ID then .error (ProgError.cpi CpiError.InvalidProgram)
  else if fromAcc.amount < amount then .error (ProgError.cpi CpiError.InsufficientBalance)
  else if fromAcc.mint ≠ toAcc.mint then .error (ProgError.cpi CpiError.InvalidMint)
  else
    match ledgerTransfer fromAcc toAcc user amount with
    | .error e => .error (ProgError.cpi e)
    | .ok (f, t) => .ok ((f, t), [⟨fromAcc, toAcc, user, amount⟩])

/-- `transfer_with_fee` (lib.rs lines 63–118) together with the
`TransferWithFee` account constraints (lines 237–260): ownership and
program checks, the handler's balance and mint checks, the checked fee
computation, then the fee leg (only if `fee > 0`) followed by the
recipient leg (only if `recipient_amount > 0`), both authorized by
`user`. -/
def transfer_with_fee (user : Pubkey) (fromAcc toAcc feeAcc : TokenAcc)
    (token_program : Pubkey) (amount : Nat) :
    Except ProgError ((TokenAcc × TokenAcc × TokenAcc) × List Leg) :=
  if fromAcc.owner ≠ user then .error (ProgError.cpi CpiError.Unauthorized)
  else if token_program ≠ TOKEN_PROGRAM_ID then .error (ProgError.cpi CpiError.InvalidProgram)
  else if fromAcc.amount < amount then .error (ProgError.cpi CpiError.InsufficientBalance)
  else if toAcc.mint ≠ fromAcc.mint then .error (ProgError.cpi CpiError.InvalidMint)
  else if feeAcc.mint ≠ fromAcc.mint then .error (ProgError.cpi CpiError.InvalidMint)
  else
    match compute_fee amount with
    | .error e => .error (ProgError.cpi e)
    | .ok (fee, recipient_amount) =>
      let feeStep : Except ProgError ((TokenAcc × TokenAcc) × List Leg) :=
        if 0 < fee then
          match ledgerTransfer fromAcc feeAcc user fee with
          | .error e => .error (ProgError.cpi e)
          | .ok (f1, p1) => .ok ((f1, p1), [Leg.mk fromAcc feeAcc user fee])
        else .ok ((fromAcc, feeAcc), ([] : List Leg))
      match feeStep with
      | .error e => .error e
      | .ok ((f1, p1), legs1) =>
        if 0 < recipient_amount then
          match ledgerTransfer f1 toAcc user recipient_amount with
          | .error e => .error (ProgError.cpi e)
          | .ok (f2, t2) =>
            .ok ((f2, t2, p1), legs1 ++ [Leg.mk f1 toAcc user recipient_amount])
        else .ok ((f1, toAcc, p1), legs1)

/-- `deposit` (lib.rs lines 122–149) together with the `Deposit` account
constraints (lines 262–292): the `from.owner == user` constraint, the
vault-authority PDA seeds constraint (canonical derivation from
`VAULT_AUTHORITY_SEED` and `user`), the `vault.owner == vault_authority`
constraint (`Unauthorized`), the program check, then the handler's
balance and mint checks and one CPI transfer authorized by `user`. -/
def deposit (user : Pubkey) (fromAcc : TokenAcc) (vault_authority : Pubkey)
    (vault : TokenAcc) (token_program : Pubkey) (amount : Nat) :
    Except ProgError ((TokenAcc × TokenAcc) × List Leg) :=
  if fromAcc.owner ≠ user then .error (ProgError.cpi CpiError.Unauthorized)
  else if vault_authority ≠ Pubkey.derived VAULT_AUTHORITY_SEED user CANONICAL_BUMP then
    .error ProgError.constraintSeeds
  else if vault.owner ≠ vault_authority then .error (ProgError.cpi CpiError.Unauthorized)
  else if token_program ≠ TOKEN_PROGRAM_ID then .error (ProgError.cpi CpiError.InvalidProgram)
  else if fromAcc.amount < amount then .error (ProgError.cpi CpiError.InsufficientBalance)
  else if fromAcc.mint ≠ vault.mint then .error (ProgError.cpi CpiError.InvalidMint)
  else
    match ledgerTransfer fromAcc vault user amount with
    | .error e => .error (ProgError.cpi e)
    | .ok (f, v) => .ok ((f, v), [⟨fromAcc, vault, user, amount⟩])

/-- `vault_transfer` (lib.rs lines 153–193) together with the
`VaultTransfer` account constraints (lines 294–322): the vault-authority
PDA seeds constraint (canonical derivation from `VAULT_AUTHORITY_SEED`
and `authority`), the `vault.owner == vault_authority` constraint
(`Unauthorized`), the program check, the handler's balance and mint
checks, and then the CPI transfer whose authorizing principal is the
identity re-derived from the caller-supplied `vault_bump` (the
`invoke_signed` signer seeds, lines 170–186). -/
def vault_transfer (authority vault_authority : Pubkey) (vault toAcc : TokenAcc)
    (token_program : Pubkey) (amount : Nat) (vault_bump : Nat) :
    Except ProgError ((TokenAcc × TokenAcc) × List Leg) :=
  if vault_authority ≠ Pubkey.derived VAULT_AUTHORITY_SEED authority CANONICAL_BUMP then
    .error ProgError.constraintSeeds
  else if vault.owner ≠ vault_authority then .error (ProgError.cpi CpiError.Unauthorized)
  else if token_program ≠ TOKEN_PROGRAM_ID then .error (ProgError.cpi CpiError.InvalidProgram)
  else if vault.amount < amount then .error (ProgError.cpi CpiError.InsufficientBalance)
  else if vault.mint ≠ toAcc.mint then .error (ProgError.cpi CpiError.InvalidMint)
  else
    match ledgerTransfer vault toAcc
        (Pubkey.derived VAULT_AUTHORITY_SEED authority vault_bump) amount with
    | .error e => .error (ProgError.cpi e)
    | .ok (v, t) =>
      .ok ((v, t), [⟨vault, toAcc, Pubkey.derived VAULT_AUTHORITY_SEED authority vault_bump, amount⟩])

/- ### Chain-level execution: persisted state and atomic commit. -/

/-- The persisted state this program can observe: the singleton
`ProtocolConfig` (if created) and the token accounts, addressed by
pubkey. -/
structure Chain where
  config : Option ProtocolConfig
  accounts : List (Pubkey × TokenAcc)
deriving DecidableEq

/-- Look up a token account by address. -/
def getAcc (l : List (Pubkey × TokenAcc)) (k : Pubkey) : Option TokenAcc :=
  (l.find? fun p => p.1 == k).map Prod.snd

/-- Store a token account value at an address. -/
def setAcc (l : List (Pubkey × TokenAcc)) (k : Pubkey) (v : TokenAcc) :
    List (Pubkey × TokenAcc) :=
  l.map fun p => if p.1 == k then (k, v) else p

/-- One instruction of the program, with its caller-supplied accounts
(by address) and arguments. -/
inductive Instr where
  | initI (authority fee_recipient : Pubkey)
  | transferTokensI (user fromA toA token_program : Pubkey) (amount : Nat)
  | transferWithFeeI (user fromA toA feeA token_program : Pubkey) (amount : Nat)
  | depositI (user fromA vault_authority vaultA token_program : Pubkey) (amount : Nat)
  | vaultTransferI (authority vault_authority vaultA toA token_program : Pubkey)
      (amount : Nat) (vault_bump : Nat)
deriving DecidableEq

/-- Run one instruction against the persisted state.  On success it
returns the new state and the list of ledger legs executed; on failure
it returns the error.  Account creation for `initI` follows the host's
account-creation semantics (the config must not already exist). -/
def exec (ch : Chain) : Instr → Except ProgError (Chain × List Leg)
  | .initI authority fee_recipient =>
    match ch.config with
    | some _ => .error ProgError.configExists
    | none =>
      .ok ({ ch with config := some (initConfig authority fee_recipient CANONICAL_BUMP) }, [])
  | .transferTokensI user fromA toA token_program amount =>
    match getAcc ch.accounts fromA, getAcc ch.accounts toA with
    | some f, some t =>
      match transfer_tokens user f t token_program amount with
      | .error e => .error e
      | .ok ((f2, t2), legs) =>
        .ok ({ ch with accounts := setAcc (setAcc ch.accounts fromA f2) toA t2 }, legs)
    | _, _ => .error ProgError.accountNotFound
  | .transferWithFeeI user fromA toA feeA token_program amount =>
    match getAcc ch.accounts fromA, getAcc ch.accounts toA, getAcc ch.accounts feeA with
    | some f, some t, some p =>
      match transfer_with_fee user f t p token_program amount with
      | .error e => .error e
      | .ok ((f2, t2, p2), legs) =>
        .ok ({ ch with
                accounts := setAcc (setAcc (setAcc ch.accounts fromA f2) toA t2) feeA p2 },
             legs)
    | _, _, _ => .error ProgError.accountNotFound
  | .depositI user fromA vault_authority vaultA token_program amount =>
    match getAcc ch.accounts fromA, getAcc ch.accounts vaultA with
    | some f, some v =>
      match deposit user f vault_authority v token_program amount with
      | .error e => .error e
      | .ok ((f2, v2), legs) =>
        .ok ({ ch with accounts := setAcc (setAcc ch.accounts fromA f2) vaultA v2 }, legs)
    | _, _ => .error ProgError.accountNotFound
  | .vaultTransferI authority vault_authority vaultA toA token_program amount vault_bump =>
    match getAcc ch.accounts vaultA, getAcc ch.accounts toA with
    | some v, some t =>
      match vault_transfer authority vault_authority v t token_program amount vault_bump with
      | .error e => .error e
      | .ok ((v2, t2), legs) =>
        .ok ({ ch with accounts := setAcc (setAcc ch.accounts vaultA v2) toA t2 }, legs)
    | _, _ => .error ProgError.accountNotFound

/-- Modelled from the spec: the host execution environment commits an
operation atomically — a successful run commits the new state, a failed
run commits nothing ("every precondition failure aborts the entire
operation immediately with no partial state change — atomicity is
guaranteed by the host"). -/
def applyInstr (ch : Chain) (i : Instr) : Chain :=
  match exec ch i with
  | .ok (ch2, _) => ch2
  | .error _ => ch

deriving instance DecidableEq for Except

/- ### Shape lemmas -/

theorem compute_fee_cases (amount : Nat) :
    compute_fee amount
      = if amount * PROTOCOL_FEE_BPS ≤ U64_MAX then
          .ok (amount * PROTOCOL_FEE_BPS / BPS_DENOMINATOR,
               amount - amount * PROTOCOL_FEE_BPS / BPS_DENOMINATOR)
        else .error CpiError.Overflow := by
  by_cases h : amount * PROTOCOL_FEE_BPS ≤ U64_MAX
  · rw [if_pos h, compute_fee_ok_of_no_overflow amount h]
  · rw [if_neg h, compute_fee_overflow amount (by omega)]

theorem ledgerTransfer_error_shape (src dst : TokenAcc) (a : Pubkey) (amt : Nat)
    (e : CpiError) (h : ledgerTransfer src dst a amt = .error e) :
    e = CpiError.Unauthorized ∨ e = CpiError.InsufficientBalance := by
  simp only [ledgerTransfer] at h
  split at h
  · left; cases h; rfl
  · split at h
    · right; cases h; rfl
    · cases h

theorem ledgerTransfer_ok_owner (src dst : TokenAcc) (a : Pubkey) (amt : Nat)
    (r : TokenAcc × TokenAcc) (h : ledgerTransfer src dst a amt = .ok r) :
    a = src.owner := by
  by_cases hown : a = src.owner
  · exact hown
  · simp [ledgerTransfer, hown] at h

/-- `transfer_with_fee` reports `Overflow` only from the checked fee
computation of lines 79–85. -/
theorem transfer_with_fee_overflow_source (user : Pubkey)
    (fromAcc toAcc feeAcc : TokenAcc) (prog : Pubkey) (amount : Nat)
    (h : transfer_with_fee user fromAcc toAcc feeAcc prog amount
          = .error (ProgError.cpi CpiError.Overflow)) :
    compute_fee amount = .error CpiError.Overflow := by
  by_cases hov : amount * PROTOCOL_FEE_BPS ≤ U64_MAX
  · exfalso
    simp only [transfer_with_fee, compute_fee_ok_of_no_overflow amount hov] at h
    split at h
    · simp at h
    split at h
    · simp at h
    split at h
    · simp at h
    split at h
    · simp at h
    split at h
    · simp at h
    by_cases hf : 0 < amount * PROTOCOL_FEE_BPS / BPS_DENOMINATOR
    · simp only [if_pos hf] at h
      cases hleg1 : ledgerTransfer fromAcc feeAcc user
          (amount * PROTOCOL_FEE_BPS / BPS_DENOMINATOR) with
      | error e1 =>
        simp only [hleg1] at h
        rcases ledgerTransfer_error_shape _ _ _ _ _ hleg1 with rfl | rfl <;> simp at h
      | ok fp =>
        obtain ⟨f1, p1⟩ := fp
        simp only [hleg1] at h
        by_cases hr : 0 < amount - amount * PROTOCOL_FEE_BPS / BPS_DENOMINATOR
        · simp only [if_pos hr] at h
          cases hleg2 : ledgerTransfer f1 toAcc user
              (amount - amount * PROTOCOL_FEE_BPS / BPS_DENOMINATOR) with
          | error e2 =>
            simp only [hleg2] at h
            rcases ledgerTransfer_error_shape _ _ _ _ _ hleg2 with rfl | rfl <;> simp at h
          | ok ft => simp [hleg2] at h
        · simp only [if_neg hr] at h
          simp at h
    · simp only [if_neg hf] at h
      by_cases hr : 0 < amount - amount * PROTOCOL_FEE_BPS / BPS_DENOMINATOR
      · simp only [if_pos hr] at h
        cases hleg2 : ledgerTransfer fromAcc toAcc user
            (amount - amount * PROTOCOL_FEE_BPS / BPS_DENOMINATOR) with
        | error e2 =>
          simp only [hleg2] at h
          rcases ledgerTransfer_error_shape _ _ _ _ _ hleg2 with rfl | rfl <;> simp at h
        | ok ft => simp [hleg2] at h
      · simp only [if_neg hr] at h
        simp at h
  · exact compute_fee_overflow amount (by omega)

/- ### Claim theorems -/

/-- C1: for every amount in the 64-bit unsigned range for which the fee
computation of `transfer_with_fee` does not report `Overflow`, the
computed fee is `floor(amount * 100 / 10000)`, the recipient amount is
`amount - fee`, and `fee + recipientAmount = amount` exactly; in
particular `amount = 10000` gives `fee = 100` and
`recipientAmount = 9900`.  (`transfer_with_fee` reports `Overflow`
only when `compute_fee` does, which is the third conjunct.) -/
theorem C1_fee_computation (amount : Nat) (hrange : amount ≤ U64_MAX)
    (hnoov : compute_fee amount ≠ .error CpiError.Overflow) :
    compute_fee amount = .ok (amount * 100 / 10000, amount - amount * 100 / 10000)
    ∧ amount * 100 / 10000 + (amount - amount * 100 / 10000) = amount
    ∧ (∀ (user : Pubkey) (f t p : TokenAcc) (prog : Pubkey),
        transfer_with_fee user f t p prog amount = .error (ProgError.cpi CpiError.Overflow) →
        compute_fee amount = .error CpiError.Overflow)
    ∧ compute_fee 10000 = .ok (100, 9900) := by
  have hov : amount * PROTOCOL_FEE_BPS ≤ U64_MAX := by
    by_contra hc
    exact hnoov (compute_fee_overflow amount (by omega))
  have hok := compute_fee_ok_of_no_overflow amount hov
  have hle : amount * PROTOCOL_FEE_BPS / BPS_DENOMINATOR ≤ amount := fee_le_amount amount
  refine ⟨?_, ?_, ?_, ?_⟩
  · simpa [PROTOCOL_FEE_BPS, BPS_DENOMINATOR] using hok
  · have := hle
    simp only [PROTOCOL_FEE_BPS, BPS_DENOMINATOR] at this
    omega
  · intro u f t p prog hh
    exact transfer_with_fee_overflow_source u f t p prog amount hh
  · rw [compute_fee_ok_of_no_overflow 10000 (by decide)]
    rfl

/-- Witness for C1 at `amount = 10000`. -/
theorem C1_fee_computation_witness :
    compute_fee 10000 = .ok (10000 * 100 / 10000, 10000 - 10000 * 100 / 10000)
    ∧ 10000 * 100 / 10000 + (10000 - 10000 * 100 / 10000) = 10000
    ∧ (∀ (user : Pubkey) (f t p : TokenAcc) (prog : Pubkey),
        transfer_with_fee user f t p prog 10000 = .error (ProgError.cpi CpiError.Overflow) →
        compute_fee 10000 = .error CpiError.Overflow)
    ∧ compute_fee 10000 = .ok (100, 9900) :=
  C1_fee_computation 10000 (by decide) (by decide)

/-- C9: the checked subtraction `amount.checked_sub(fee)` in
`transfer_with_fee` can never fail: whenever the checked multiplication
and division of lines 79–84 succeed, `fee ≤ amount`, so the `Overflow`
branch attached to the subtraction (line 85) is unreachable, and the
only source of a `compute_fee` overflow is the multiplication. -/
theorem C9_checked_sub_unreachable (amount m fee : Nat)
    (hmul : checked_mul amount PROTOCOL_FEE_BPS = some m)
    (hdiv : checked_div m BPS_DENOMINATOR = some fee) :
    fee ≤ amount
    ∧ checked_sub amount fee = some (amount - fee)
    ∧ (∀ a, compute_fee a = .error CpiError.Overflow →
        checked_mul a PROTOCOL_FEE_BPS = none) := by
  have hm : m = amount * PROTOCOL_FEE_BPS := by
    simp only [checked_mul] at hmul
    split at hmul
    · exact (Option.some.inj hmul).symm
    · cases hmul
  have hf : fee = amount * PROTOCOL_FEE_BPS / BPS_DENOMINATOR := by
    simp [checked_div, BPS_DENOMINATOR] at hdiv
    simp [← hdiv, hm, BPS_DENOMINATOR]
  have hle : fee ≤ amount := by rw [hf]; exact fee_le_amount amount
  refine ⟨hle, by simp [checked_sub, hle], ?_⟩
  intro a ha
  rw [compute_fee_cases] at ha
  split at ha
  · cases ha
  · simp only [checked_mul]
    rw [if_neg (by omega)]

/-- Witness for C9 at `amount = 10000`, `m = 1000000`, `fee = 100`. -/
theorem C9_checked_sub_unreachable_witness :
    100 ≤ 10000
    ∧ checked_sub 10000 100 = some (10000 - 100)
    ∧ (∀ a, compute_fee a = .error CpiError.Overflow →
        checked_mul a PROTOCOL_FEE_BPS = none) :=
  C9_checked_sub_unreachable 10000 1000000 100 (by decide) (by decide)

/-- C5: the fee multiplication and division are checked operations
reporting `Overflow` instead of wrapping: for every amount whose
product with the 100-bps fee rate exceeds the 64-bit unsigned range,
`transfer_with_fee` fails with `Overflow` (the result is the error, so
no transfer leg is issued), provided execution reaches the fee
computation (owner, program, balance and mint checks pass). -/
theorem C5_mul_overflow_reported (user : Pubkey) (fromAcc toAcc feeAcc : TokenAcc)
    (amount : Nat)
    (hown : fromAcc.owner = user) (hbal : amount ≤ fromAcc.amount)
    (hm1 : toAcc.mint = fromAcc.mint) (hm2 : feeAcc.mint = fromAcc.mint)
    (hov : U64_MAX < amount * PROTOCOL_FEE_BPS) :
    transfer_with_fee user fromAcc toAcc feeAcc TOKEN_PROGRAM_ID amount
        = .error (ProgError.cpi CpiError.Overflow)
    ∧ compute_fee amount = .error CpiError.Overflow := by
  have hcf := compute_fee_overflow amount hov
  refine ⟨?_, hcf⟩
  simp [transfer_with_fee, hown, hm1, hm2, hcf, Nat.not_lt.mpr hbal]

/-- Witness for C5 at `amount = 2 * 10^17` (whose product with 100
exceeds `U64_MAX`). -/
theorem C5_mul_overflow_reported_witness :
    transfer_with_fee (Pubkey.key 1)
      { owner := Pubkey.key 1, mint := Pubkey.key 5, amount := 200000000000000000 }
      { owner := Pubkey.key 2, mint := Pubkey.key 5, amount := 0 }
      { owner := Pubkey.key 3, mint := Pubkey.key 5, amount := 0 }
      TOKEN_PROGRAM_ID 200000000000000000
        = .error (ProgError.cpi CpiError.Overflow)
    ∧ compute_fee 200000000000000000 = .error CpiError.Overflow :=
  C5_mul_overflow_reported (Pubkey.key 1) _ _ _ 200000000000000000
    rfl (by decide) rfl rfl (by decide)

theorem ledgerTransfer_ok_of (src dst : TokenAcc) (a : Pubkey) (amt : Nat)
    (h1 : a = src.owner) (h2 : amt ≤ src.amount) :
    ledgerTransfer src dst a amt
      = .ok ({ src with amount := src.amount - amt },
             { dst with amount := dst.amount + amt }) := by
  simp [ledgerTransfer, h1, Nat.not_lt.mpr h2]

/-- Full characterization of a successful `transfer_with_fee` run: the
final balances and the exact list of ledger legs. -/
theorem transfer_with_fee_success_shape (user : Pubkey) (fromAcc toAcc feeAcc : TokenAcc)
    (amount : Nat)
    (hown : fromAcc.owner = user) (hbal : amount ≤ fromAcc.amount)
    (hm1 : toAcc.mint = fromAcc.mint) (hm2 : feeAcc.mint = fromAcc.mint)
    (hov : amount * PROTOCOL_FEE_BPS ≤ U64_MAX) :
    transfer_with_fee user fromAcc toAcc feeAcc TOKEN_PROGRAM_ID amount
      = .ok (({ fromAcc with amount := fromAcc.amount - amount },
              { toAcc with amount :=
                  toAcc.amount + (amount - amount * PROTOCOL_FEE_BPS / BPS_DENOMINATOR) },
              { feeAcc with amount :=
                  feeAcc.amount + amount * PROTOCOL_FEE_BPS / BPS_DENOMINATOR }),
             (if 0 < amount * PROTOCOL_FEE_BPS / BPS_DENOMINATOR then
                [Leg.mk fromAcc feeAcc user (amount * PROTOCOL_FEE_BPS / BPS_DENOMINATOR)]
              else [])
             ++ (if 0 < amount - amount * PROTOCOL_FEE_BPS / BPS_DENOMINATOR then
                [Leg.mk
                   { fromAcc with amount :=
                       fromAcc.amount - amount * PROTOCOL_FEE_BPS / BPS_DENOMINATOR }
                   toAcc user (amount - amount * PROTOCOL_FEE_BPS / BPS_DENOMINATOR)]
              else [])) := by
  have hfle : amount * PROTOCOL_FEE_BPS / BPS_DENOMINATOR ≤ amount := fee_le_amount amount
  have hcf := compute_fee_ok_of_no_overflow amount hov
  generalize hFdef : amount * PROTOCOL_FEE_BPS / BPS_DENOMINATOR = F at hfle hcf ⊢
  simp only [transfer_with_fee, hcf]
  rw [if_neg (by simp [hown]), if_neg (by simp), if_neg (Nat.not_lt.mpr hbal),
      if_neg (by simp [hm1]), if_neg (by simp [hm2])]
  have hl1 := ledgerTransfer_ok_of fromAcc feeAcc user F hown.symm (le_trans hfle hbal)
  by_cases hf : 0 < F
  · by_cases hr : 0 < amount - F
    · have hl2 := ledgerTransfer_ok_of
        { fromAcc with amount := fromAcc.amount - F } toAcc user (amount - F)
        hown.symm (Nat.sub_le_sub_right hbal F)
      simp only [if_pos hf, if_pos hr, hl1, hl2, List.singleton_append]
      have harith : fromAcc.amount - F - (amount - F) = fromAcc.amount - amount := by omega
      rw [harith]
    · have hFa : F = amount := by omega
      subst hFa
      simp only [if_pos hf, hl1, Nat.sub_self, lt_self_iff_false, if_false, List.append_nil]
      rfl
  · have hF0 : F = 0 := by omega
    subst hF0
    simp only [Nat.sub_zero] at hfle ⊢
    by_cases hr : 0 < amount
    · have hl2 := ledgerTransfer_ok_of fromAcc toAcc user amount hown.symm hbal
      simp only [if_neg hf, if_pos hr, hl2, List.nil_append, Nat.add_zero]
    · have hr0 : amount = 0 := by omega
      subst hr0
      simp only [if_neg hf, if_neg hr, List.append_nil, Nat.sub_zero, Nat.add_zero]

/-- C4: for every successful `transfer_with_fee` call, the fee leg
(`from → protocol_fee_account`, amount = fee) is issued exactly when
`fee > 0`, followed by the recipient leg (`from → to`, amount =
`recipient_amount`) exactly when `recipient_amount > 0`; consequently
`amount = 0` issues zero ledger calls and succeeds as a no-op, and
`amount = 1` issues only the recipient leg with amount 1.  The
hypotheses are exactly the validations `transfer_with_fee` performs, so
they characterize every successful call. -/
theorem C4_fee_and_recipient_legs (user : Pubkey) (fromAcc toAcc feeAcc : TokenAcc)
    (amount : Nat)
    (hown : fromAcc.owner = user) (hbal : amount ≤ fromAcc.amount)
    (hm1 : toAcc.mint = fromAcc.mint) (hm2 : feeAcc.mint = fromAcc.mint)
    (hov : amount * 100 ≤ U64_MAX) :
    transfer_with_fee user fromAcc toAcc feeAcc TOKEN_PROGRAM_ID amount
      = .ok (({ fromAcc with amount := fromAcc.amount - amount },
              { toAcc with amount := toAcc.amount + (amount - amount * 100 / 10000) },
              { feeAcc with amount := feeAcc.amount + amount * 100 / 10000 }),
             (if 0 < amount * 100 / 10000 then
                [Leg.mk fromAcc feeAcc user (amount * 100 / 10000)]
              else [])
             ++ (if 0 < amount - amount * 100 / 10000 then
                [Leg.mk { fromAcc with amount := fromAcc.amount - amount * 100 / 10000 }
                   toAcc user (amount - amount * 100 / 10000)]
              else []))
    ∧ transfer_with_fee user fromAcc toAcc feeAcc TOKEN_PROGRAM_ID 0
        = .ok ((fromAcc, toAcc, feeAcc), [])
    ∧ (1 ≤ fromAcc.amount →
        transfer_with_fee user fromAcc toAcc feeAcc TOKEN_PROGRAM_ID 1
          = .ok (({ fromAcc with amount := fromAcc.amount - 1 },
                  { toAcc with amount := toAcc.amount + 1 }, feeAcc),
                 [Leg.mk fromAcc toAcc user 1])) :=
  ⟨transfer_with_fee_success_shape user fromAcc toAcc feeAcc amount hown hbal hm1 hm2 hov,
   transfer_with_fee_success_shape user fromAcc toAcc feeAcc 0 hown (Nat.zero_le _) hm1 hm2
     (by decide),
   fun h1 => transfer_with_fee_success_shape user fromAcc toAcc feeAcc 1 hown h1 hm1 hm2
     (by decide)⟩

/-- Witness for C4 at `amount = 10000` (fee 100, recipient 9900). -/
theorem C4_fee_and_recipient_legs_witness :
    transfer_with_fee (Pubkey.key 1)
        { owner := Pubkey.key 1, mint := Pubkey.key 5, amount := 20000 }
        { owner := Pubkey.key 2, mint := Pubkey.key 5, amount := 7 }
        { owner := Pubkey.key 3, mint := Pubkey.key 5, amount := 3 }
        TOKEN_PROGRAM_ID 10000
      = .ok (({ owner := Pubkey.key 1, mint := Pubkey.key 5, amount := 10000 },
              { owner := Pubkey.key 2, mint := Pubkey.key 5, amount := 9907 },
              { owner := Pubkey.key 3, mint := Pubkey.key 5, amount := 103 }),
             [Leg.mk { owner := Pubkey.key 1, mint := Pubkey.key 5, amount := 20000 }
                { owner := Pubkey.key 3, mint := Pubkey.key 5, amount := 3 } (Pubkey.key 1) 100,
              Leg.mk { owner := Pubkey.key 1, mint := Pubkey.key 5, amount := 19900 }
                { owner := Pubkey.key 2, mint := Pubkey.key 5, amount := 7 } (Pubkey.key 1) 9900])
    ∧ transfer_with_fee (Pubkey.key 1)
        { owner := Pubkey.key 1, mint := Pubkey.key 5, amount := 20000 }
        { owner := Pubkey.key 2, mint := Pubkey.key 5, amount := 7 }
        { owner := Pubkey.key 3, mint := Pubkey.key 5, amount := 3 }
        TOKEN_PROGRAM_ID 0
      = .ok (({ owner := Pubkey.key 1, mint := Pubkey.key 5, amount := 20000 },
              { owner := Pubkey.key 2, mint := Pubkey.key 5, amount := 7 },
              { owner := Pubkey.key 3, mint := Pubkey.key 5, amount := 3 }), [])
    ∧ (1 ≤ 20000 →
        transfer_with_fee (Pubkey.key 1)
          { owner := Pubkey.key 1, mint := Pubkey.key 5, amount := 20000 }
          { owner := Pubkey.key 2, mint := Pubkey.key 5, amount := 7 }
          { owner := Pubkey.key 3, mint := Pubkey.key 5, amount := 3 }
          TOKEN_PROGRAM_ID 1
        = .ok (({ owner := Pubkey.key 1, mint := Pubkey.key 5, amount := 19999 },
                { owner := Pubkey.key 2, mint := Pubkey.key 5, amount := 8 },
                { owner := Pubkey.key 3, mint := Pubkey.key 5, amount := 3 }),
               [Leg.mk { owner := Pubkey.key 1, mint := Pubkey.key 5, amount := 20000 }
                  { owner := Pubkey.key 2, mint := Pubkey.key 5, amount := 7 }
                  (Pubkey.key 1) 1])) :=
  C4_fee_and_recipient_legs (Pubkey.key 1)
    { owner := Pubkey.key 1, mint := Pubkey.key 5, amount := 20000 }
    { owner := Pubkey.key 2, mint := Pubkey.key 5, amount := 7 }
    { owner := Pubkey.key 3, mint := Pubkey.key 5, amount := 3 }
    10000 rfl (by decide) rfl rfl (by decide)

/-- C6 (amended): `transfer_tokens` fails with `Unauthorized` whenever
`user` is not the owner of `from` (this check runs first); with an
authorized user and the expected ledger program it fails with
`InsufficientBalance` whenever `amount > from.amount`; when
additionally `amount ≤ from.amount` it fails with `InvalidMint`
whenever `from.mint ≠ to.mint`; and when all three preconditions hold
it issues exactly one ledger transfer of `amount` from `from` to `to`
authorized by `user`. -/
theorem C6_transfer_tokens_checks (user : Pubkey) (fromAcc toAcc : TokenAcc)
    (prog : Pubkey) (amount : Nat) :
    (fromAcc.owner ≠ user →
       transfer_tokens user fromAcc toAcc prog amount
         = .error (ProgError.cpi CpiError.Unauthorized))
    ∧ (fromAcc.owner = user → prog = TOKEN_PROGRAM_ID → fromAcc.amount < amount →
       transfer_tokens user fromAcc toAcc prog amount
         = .error (ProgError.cpi CpiError.InsufficientBalance))
    ∧ (fromAcc.owner = user → prog = TOKEN_PROGRAM_ID → amount ≤ fromAcc.amount →
       fromAcc.mint ≠ toAcc.mint →
       transfer_tokens user fromAcc toAcc prog amount
         = .error (ProgError.cpi CpiError.InvalidMint))
    ∧ (fromAcc.owner = user → prog = TOKEN_PROGRAM_ID → amount ≤ fromAcc.amount →
       fromAcc.mint = toAcc.mint →
       transfer_tokens user fromAcc toAcc prog amount
         = .ok (({ fromAcc with amount := fromAcc.amount - amount },
                 { toAcc with amount := toAcc.amount + amount }),
                [Leg.mk fromAcc toAcc user amount])) := by
  refine ⟨?_, ?_, ?_, ?_⟩
  · intro h
    simp [transfer_tokens, h]
  · intro h1 h2 h3
    subst h2
    simp [transfer_tokens, h1, h3]
  · intro h1 h2 h3 h4
    subst h2
    simp [transfer_tokens, h1, h4, Nat.not_lt.mpr h3]
  · intro h1 h2 h3 h4
    subst h2
    have hl := ledgerTransfer_ok_of fromAcc toAcc user amount h1.symm h3
    simp [transfer_tokens, h1, h4, Nat.not_lt.mpr h3, hl]

/-- C6 counterexample: with a mint mismatch AND an insufficient
balance, `transfer_tokens` fails with `InsufficientBalance` (the
handler checks the balance first, lib.rs lines 34–43), not
`InvalidMint` — so the claim's unconditional "fails with `InvalidMint`
whenever `from.mint != to.mint`" is false as stated. -/
theorem C6_counterexample :
    transfer_tokens (Pubkey.key 1)
        { owner := Pubkey.key 1, mint := Pubkey.key 5, amount := 0 }
        { owner := Pubkey.key 2, mint := Pubkey.key 6, amount := 0 }
        TOKEN_PROGRAM_ID 1
      = .error (ProgError.cpi CpiError.InsufficientBalance)
    ∧ transfer_tokens (Pubkey.key 1)
        { owner := Pubkey.key 1, mint := Pubkey.key 5, amount := 0 }
        { owner := Pubkey.key 2, mint := Pubkey.key 6, amount := 0 }
        TOKEN_PROGRAM_ID 1
      ≠ .error (ProgError.cpi CpiError.InvalidMint) :=
  ⟨rfl, by decide⟩

/-- Witness for C6: an unauthorized call fails with `Unauthorized`, and
a fully valid call moves the tokens in one leg. -/
theorem C6_transfer_tokens_checks_witness :
    transfer_tokens (Pubkey.key 9)
        { owner := Pubkey.key 1, mint := Pubkey.key 5, amount := 10 }
        { owner := Pubkey.key 2, mint := Pubkey.key 5, amount := 4 }
        TOKEN_PROGRAM_ID 3
      = .error (ProgError.cpi CpiError.Unauthorized)
    ∧ transfer_tokens (Pubkey.key 1)
        { owner := Pubkey.key 1, mint := Pubkey.key 5, amount := 10 }
        { owner := Pubkey.key 2, mint := Pubkey.key 5, amount := 4 }
        TOKEN_PROGRAM_ID 3
      = .ok (({ owner := Pubkey.key 1, mint := Pubkey.key 5, amount := 7 },
              { owner := Pubkey.key 2, mint := Pubkey.key 5, amount := 7 }),
             [Leg.mk { owner := Pubkey.key 1, mint := Pubkey.key 5, amount := 10 }
                { owner := Pubkey.key 2, mint := Pubkey.key 5, amount := 4 }
                (Pubkey.key 1) 3]) :=
  ⟨(C6_transfer_tokens_checks (Pubkey.key 9)
      { owner := Pubkey.key 1, mint := Pubkey.key 5, amount := 10 }
      { owner := Pubkey.key 2, mint := Pubkey.key 5, amount := 4 }
      TOKEN_PROGRAM_ID 3).1 (by decide),
   (C6_transfer_tokens_checks (Pubkey.key 1)
      { owner := Pubkey.key 1, mint := Pubkey.key 5, amount := 10 }
      { owner := Pubkey.key 2, mint := Pubkey.key 5, amount := 4 }
      TOKEN_PROGRAM_ID 3).2.2.2 rfl rfl (by decide) rfl⟩

/-- C8 (amended): a successful `deposit` issues exactly one transfer
leg `from → vault` authorized by `user` (not by the derived
authority); the operation requires `amount ≤ from.amount`,
`from.mint == vault.mint` and `vault.owner` equal to the
`DerivedAuthority` computed from the fixed seed tag and `user`, and
fails with `Unauthorized` when the vault is not owned by that derived
authority, with `InsufficientBalance` when the balance is short, and —
provided the balance check passes first — with `InvalidMint` on a mint
mismatch. -/
theorem C8_deposit_spec (user va prog : Pubkey) (fromAcc vault : TokenAcc)
    (amount : Nat) :
    (fromAcc.owner = user →
     va = Pubkey.derived VAULT_AUTHORITY_SEED user CANONICAL_BUMP →
     vault.owner ≠ va →
       deposit user fromAcc va vault prog amount
         = .error (ProgError.cpi CpiError.Unauthorized))
    ∧ (fromAcc.owner = user →
       va = Pubkey.derived VAULT_AUTHORITY_SEED user CANONICAL_BUMP →
       vault.owner = va → prog = TOKEN_PROGRAM_ID → fromAcc.amount < amount →
       deposit user fromAcc va vault prog amount
         = .error (ProgError.cpi CpiError.InsufficientBalance))
    ∧ (fromAcc.owner = user →
       va = Pubkey.derived VAULT_AUTHORITY_SEED user CANONICAL_BUMP →
       vault.owner = va → prog = TOKEN_PROGRAM_ID → amount ≤ fromAcc.amount →
       fromAcc.mint ≠ vault.mint →
       deposit user fromAcc va vault prog amount
         = .error (ProgError.cpi CpiError.InvalidMint))
    ∧ (fromAcc.owner = user →
       va = Pubkey.derived VAULT_AUTHORITY_SEED user CANONICAL_BUMP →
       vault.owner = va → prog = TOKEN_PROGRAM_ID → amount ≤ fromAcc.amount →
       fromAcc.mint = vault.mint →
       deposit user fromAcc va vault prog amount
         = .ok (({ fromAcc with amount := fromAcc.amount - amount },
                 { vault with amount := vault.amount + amount }),
                [Leg.mk fromAcc vault user amount])) := by
  refine ⟨?_, ?_, ?_, ?_⟩
  · intro h1 h2 h3
    subst h2
    simp [deposit, h1, h3]
  · intro h1 h2 h3 h4 h5
    subst h2; subst h4
    simp [deposit, h1, h3, h5]
  · intro h1 h2 h3 h4 h5 h6
    subst h2; subst h4
    simp [deposit, h1, h3, h6, Nat.not_lt.mpr h5]
  · intro h1 h2 h3 h4 h5 h6
    subst h2; subst h4
    have hl := ledgerTransfer_ok_of fromAcc vault user amount h1.symm h5
    simp [deposit, h1, h3, h6, Nat.not_lt.mpr h5, hl]

/-- C8 counterexample: with a mint mismatch AND an insufficient
balance, `deposit` fails with `InsufficientBalance` (balance is checked
before the mint, lib.rs lines 124–133), not `InvalidMint` — so the
claim's "failing with ... `InvalidMint` ... otherwise" is false as an
unconditional statement. -/
theorem C8_counterexample :
    deposit (Pubkey.key 1)
        { owner := Pubkey.key 1, mint := Pubkey.key 5, amount := 0 }
        (Pubkey.derived VAULT_AUTHORITY_SEED (Pubkey.key 1) CANONICAL_BUMP)
        { owner := Pubkey.derived VAULT_AUTHORITY_SEED (Pubkey.key 1) CANONICAL_BUMP,
          mint := Pubkey.key 6, amount := 0 }
        TOKEN_PROGRAM_ID 1
      = .error (ProgError.cpi CpiError.InsufficientBalance)
    ∧ deposit (Pubkey.key 1)
        { owner := Pubkey.key 1, mint := Pubkey.key 5, amount := 0 }
        (Pubkey.derived VAULT_AUTHORITY_SEED (Pubkey.key 1) CANONICAL_BUMP)
        { owner := Pubkey.derived VAULT_AUTHORITY_SEED (Pubkey.key 1) CANONICAL_BUMP,
          mint := Pubkey.key 6, amount := 0 }
        TOKEN_PROGRAM_ID 1
      ≠ .error (ProgError.cpi CpiError.InvalidMint) :=
  ⟨rfl, by decide⟩

/-- Witness for C8: a vault owned by someone other than the canonical
derived authority is rejected with `Unauthorized`, and a fully valid
deposit moves the tokens in one leg authorized by the user. -/
theorem C8_deposit_spec_witness :
    deposit (Pubkey.key 1)
        { owner := Pubkey.key 1, mint := Pubkey.key 5, amount := 10 }
        (Pubkey.derived VAULT_AUTHORITY_SEED (Pubkey.key 1) CANONICAL_BUMP)
        { owner := Pubkey.key 4, mint := Pubkey.key 5, amount := 0 }
        TOKEN_PROGRAM_ID 3
      = .error (ProgError.cpi CpiError.Unauthorized)
    ∧ deposit (Pubkey.key 1)
        { owner := Pubkey.key 1, mint := Pubkey.key 5, amount := 10 }
        (Pubkey.derived VAULT_AUTHORITY_SEED (Pubkey.key 1) CANONICAL_BUMP)
        { owner := Pubkey.derived VAULT_AUTHORITY_SEED (Pubkey.key 1) CANONICAL_BUMP,
          mint := Pubkey.key 5, amount := 100 }
        TOKEN_PROGRAM_ID 3
      = .ok (({ owner := Pubkey.key 1, mint := Pubkey.key 5, amount := 7 },
              { owner := Pubkey.derived VAULT_AUTHORITY_SEED (Pubkey.key 1) CANONICAL_BUMP,
                mint := Pubkey.key 5, amount := 103 }),
             [Leg.mk { owner := Pubkey.key 1, mint := Pubkey.key 5, amount := 10 }
                { owner := Pubkey.derived VAULT_AUTHORITY_SEED (Pubkey.key 1) CANONICAL_BUMP,
                  mint := Pubkey.key 5, amount := 100 }
                (Pubkey.key 1) 3]) :=
  ⟨(C8_deposit_spec (Pubkey.key 1)
      (Pubkey.derived VAULT_AUTHORITY_SEED (Pubkey.key 1) CANONICAL_BUMP)
      TOKEN_PROGRAM_ID
      { owner := Pubkey.key 1, mint := Pubkey.key 5, amount := 10 }
      { owner := Pubkey.key 4, mint := Pubkey.key 5, amount := 0 } 3).1
      rfl rfl (by decide),
   (C8_deposit_spec (Pubkey.key 1)
      (Pubkey.derived VAULT_AUTHORITY_SEED (Pubkey.key 1) CANONICAL_BUMP)
      TOKEN_PROGRAM_ID
      { owner := Pubkey.key 1, mint := Pubkey.key 5, amount := 10 }
      { owner := Pubkey.derived VAULT_AUTHORITY_SEED (Pubkey.key 1) CANONICAL_BUMP,
        mint := Pubkey.key 5, amount := 100 } 3).2.2.2
      rfl rfl rfl rfl (by decide) rfl⟩

/-- C2 (amended): when the supplied vault authority is the canonical
derived identity, the vault is owned by it, and the balance, mint and
program validations pass, a caller-supplied `vault_bump` different from
the canonical disambiguator re-derives a different identity, so the
Token Ledger Interface rejects the withdrawal with `Unauthorized` (and,
the result being an error, no balance changes); moreover any successful
`vault_transfer` requires the re-derived identity
`hash(seedTag, authority, vault_bump)` to equal the vault's recorded
owner. -/
theorem C2_vault_transfer_bump (authority : Pubkey) (vault toAcc : TokenAcc)
    (amount vault_bump : Nat)
    (hown : vault.owner = Pubkey.derived VAULT_AUTHORITY_SEED authority CANONICAL_BUMP)
    (hbal : amount ≤ vault.amount) (hmint : vault.mint = toAcc.mint)
    (hbump : vault_bump ≠ CANONICAL_BUMP) :
    vault_transfer authority vault.owner vault toAcc TOKEN_PROGRAM_ID amount vault_bump
      = .error (ProgError.cpi CpiError.Unauthorized)
    ∧ (∀ (auth2 va2 prog2 : Pubkey) (vault2 to2 : TokenAcc) (amt2 b2 : Nat)
         (r : (TokenAcc × TokenAcc) × List Leg),
         vault_transfer auth2 va2 vault2 to2 prog2 amt2 b2 = .ok r →
         Pubkey.derived VAULT_AUTHORITY_SEED auth2 b2 = vault2.owner) := by
  constructor
  · simp [vault_transfer, ledgerTransfer, hown, hmint, Nat.not_lt.mpr hbal, hbump]
  · intro auth2 va2 prog2 vault2 to2 amt2 b2 r h
    simp only [vault_transfer] at h
    split at h
    · cases h
    split at h
    · cases h
    split at h
    · cases h
    split at h
    · cases h
    split at h
    · cases h
    split at h
    next e heq => cases h
    next v t heq => exact ledgerTransfer_ok_owner _ _ _ _ _ heq

/-- C2 counterexample: a call whose `vault_bump` (7) differs from the
canonical disambiguator but whose requested amount also exceeds the
vault balance fails with `InsufficientBalance` (the balance is checked
before the CPI is attempted, lib.rs lines 159–162), not `Unauthorized`
— so "for every call with a non-canonical bump the operation fails
with `Unauthorized`" is false as stated. -/
theorem C2_counterexample :
    vault_transfer (Pubkey.key 1)
        (Pubkey.derived VAULT_AUTHORITY_SEED (Pubkey.key 1) CANONICAL_BUMP)
        { owner := Pubkey.derived VAULT_AUTHORITY_SEED (Pubkey.key 1) CANONICAL_BUMP,
          mint := Pubkey.key 5, amount := 0 }
        { owner := Pubkey.key 2, mint := Pubkey.key 5, amount := 0 }
        TOKEN_PROGRAM_ID 1 7
      = .error (ProgError.cpi CpiError.InsufficientBalance)
    ∧ (7 : Nat) ≠ CANONICAL_BUMP
    ∧ vault_transfer (Pubkey.key 1)
        (Pubkey.derived VAULT_AUTHORITY_SEED (Pubkey.key 1) CANONICAL_BUMP)
        { owner := Pubkey.derived VAULT_AUTHORITY_SEED (Pubkey.key 1) CANONICAL_BUMP,
          mint := Pubkey.key 5, amount := 0 }
        { owner := Pubkey.key 2, mint := Pubkey.key 5, amount := 0 }
        TOKEN_PROGRAM_ID 1 7
      ≠ .error (ProgError.cpi CpiError.Unauthorized) :=
  ⟨rfl, by decide, by decide⟩

/-- Witness for C2: a well-formed withdrawal request with bump 7
instead of the canonical disambiguator is rejected with
`Unauthorized`. -/
theorem C2_vault_transfer_bump_witness :
    vault_transfer (Pubkey.key 1)
        (Pubkey.derived VAULT_AUTHORITY_SEED (Pubkey.key 1) CANONICAL_BUMP)
        { owner := Pubkey.derived VAULT_AUTHORITY_SEED (Pubkey.key 1) CANONICAL_BUMP,
          mint := Pubkey.key 5, amount := 10 }
        { owner := Pubkey.key 2, mint := Pubkey.key 5, amount := 0 }
        TOKEN_PROGRAM_ID 4 7
      = .error (ProgError.cpi CpiError.Unauthorized)
    ∧ (∀ (auth2 va2 prog2 : Pubkey) (vault2 to2 : TokenAcc) (amt2 b2 : Nat)
         (r : (TokenAcc × TokenAcc) × List Leg),
         vault_transfer auth2 va2 vault2 to2 prog2 amt2 b2 = .ok r →
         Pubkey.derived VAULT_AUTHORITY_SEED auth2 b2 = vault2.owner) :=
  C2_vault_transfer_bump (Pubkey.key 1)
    { owner := Pubkey.derived VAULT_AUTHORITY_SEED (Pubkey.key 1) CANONICAL_BUMP,
      mint := Pubkey.key 5, amount := 10 }
    { owner := Pubkey.key 2, mint := Pubkey.key 5, amount := 0 }
    4 7 rfl (by decide) rfl (by decide)

/-- C3: every operation is all-or-nothing: on any input on which an
instruction returns an error (any `CpiError`, a failed constraint, a
missing account, or a failed transfer leg), the committed chain state —
every account balance and the persisted config — is exactly the
pre-instruction state.  The commit semantics (`applyInstr`) is the
host's transactional atomicity, which the spec delegates to the
execution environment; this covers `transfer_with_fee` in particular,
whose two legs either both commit or leave no trace. -/
theorem C3_atomicity (ch : Chain) (i : Instr) (e : ProgError)
    (h : exec ch i = .error e) : applyInstr ch i = ch := by
  simp [applyInstr, h]

/-- Witness for C3: a transfer against a chain with no accounts fails
and commits nothing. -/
theorem C3_atomicity_witness :
    applyInstr { config := none, accounts := [] }
        (Instr.transferTokensI (Pubkey.key 1) (Pubkey.key 2) (Pubkey.key 3)
          TOKEN_PROGRAM_ID 5)
      = { config := none, accounts := [] } :=
  C3_atomicity { config := none, accounts := [] }
    (Instr.transferTokensI (Pubkey.key 1) (Pubkey.key 2) (Pubkey.key 3)
      TOKEN_PROGRAM_ID 5)
    ProgError.accountNotFound rfl

/-- C7: after any successful `initialize`, the stored `ProtocolConfig`
has `fee_bps` exactly 100 regardless of caller-supplied values (the
instruction takes no fee argument), and no operation of the module ever
changes `fee_bps` afterwards: every successful instruction either
leaves the config's `fee_bps` untouched or (re-)sets it to 100. -/
theorem C7_fee_bps_fixed :
    (∀ (a f : Pubkey) (ch ch2 : Chain) (legs : List Leg),
       exec ch (Instr.initI a f) = .ok (ch2, legs) →
       ch2.config = some (initConfig a f CANONICAL_BUMP)
       ∧ Option.map ProtocolConfig.fee_bps ch2.config = some 100)
    ∧ (∀ (ch : Chain) (i : Instr) (ch2 : Chain) (legs : List Leg),
       exec ch i = .ok (ch2, legs) →
       Option.map ProtocolConfig.fee_bps ch2.config
         = Option.map ProtocolConfig.fee_bps ch.config
       ∨ Option.map ProtocolConfig.fee_bps ch2.config = some 100) := by
  constructor
  · intro a f ch ch2 legs h
    simp only [exec] at h
    cases hc : ch.config with
    | some c => rw [hc] at h; cases h
    | none =>
      rw [hc] at h
      cases h
      exact ⟨rfl, rfl⟩
  · intro ch i ch2 legs h
    cases i with
    | initI a f =>
      right
      simp only [exec] at h
      cases hc : ch.config with
      | some c => rw [hc] at h; cases h
      | none => rw [hc] at h; cases h; rfl
    | transferTokensI u fa ta tp amt =>
      left
      simp only [exec] at h
      split at h
      · split at h
        · cases h
        · cases h; rfl
      · cases h
    | transferWithFeeI u fa ta pa tp amt =>
      left
      simp only [exec] at h
      split at h
      · split at h
        · cases h
        · cases h; rfl
      · cases h
    | depositI u fa va vaultA tp amt =>
      left
      simp only [exec] at h
      split at h
      · split at h
        · cases h
        · cases h; rfl
      · cases h
    | vaultTransferI au va vaultA ta tp amt b =>
      left
      simp only [exec] at h
      split at h
      · split at h
        · cases h
        · cases h; rfl
      · cases h

/-- Witness for C7: initializing on an empty chain stores a config with
`fee_bps = 100`. -/
theorem C7_fee_bps_fixed_witness :
    ({ config := some (initConfig (Pubkey.key 1) (Pubkey.key 2) CANONICAL_BUMP),
       accounts := [] } : Chain).config
        = some (initConfig (Pubkey.key 1) (Pubkey.key 2) CANONICAL_BUMP)
    ∧ Option.map ProtocolConfig.fee_bps
        ({ config := some (initConfig (Pubkey.key 1) (Pubkey.key 2) CANONICAL_BUMP),
           accounts := [] } : Chain).config
        = some 100 :=
  C7_fee_bps_fixed.1 (Pubkey.key 1) (Pubkey.key 2)
    { config := none, accounts := [] }
    { config := some (initConfig (Pubkey.key 1) (Pubkey.key 2) CANONICAL_BUMP),
      accounts := [] }
    [] rfl

/-- C10: the outcome of `transfer_with_fee` is independent of the
stored `ProtocolConfig`: the `TransferWithFee` accounts struct does not
include the config (lib.rs lines 237–260) and the fee comes from the
hardcoded `PROTOCOL_FEE_BPS = 100` constant, so two runs on chains with
identical token accounts but arbitrary different (or absent) configs
produce identical results — same error or same account balances and
the same transfer legs. -/
theorem C10_config_independent (ch1 ch2 : Chain)
    (h : ch1.accounts = ch2.accounts)
    (user fromA toA feeA prog : Pubkey) (amount : Nat) :
    Except.map (fun p => (p.1.accounts, p.2))
        (exec ch1 (Instr.transferWithFeeI user fromA toA feeA prog amount))
      = Except.map (fun p => (p.1.accounts, p.2))
        (exec ch2 (Instr.transferWithFeeI user fromA toA feeA prog amount))
    ∧ PROTOCOL_FEE_BPS = 100 := by
  refine ⟨?_, rfl⟩
  simp only [exec]
  rw [h]
  rcases hf : getAcc ch2.accounts fromA with _ | f
  · simp [hf]
  rcases ht : getAcc ch2.accounts toA with _ | t
  · simp [hf, ht]
  rcases hp : getAcc ch2.accounts feeA with _ | pacc
  · simp [hf, ht, hp]
  rcases hr : transfer_with_fee user f t pacc prog amount with e | pr
  · simp [hf, ht, hp, hr]
  · obtain ⟨⟨f2, t2, p2⟩, legs⟩ := pr
    simp [hf, ht, hp, hr, Except.map]

/-- Witness for C10: a chain with a config whose `fee_bps` is even a
bogus 7777 and a chain with no config at all give identical
`transfer_with_fee` outcomes on the same accounts. -/
theorem C10_config_independent_witness :
    Except.map (fun p => (p.1.accounts, p.2))
        (exec { config := some { authority := Pubkey.key 7, fee_recipient := Pubkey.key 8,
                                 fee_bps := 7777, bump := 3 },
                accounts := [(Pubkey.key 10,
                               { owner := Pubkey.key 1, mint := Pubkey.key 5, amount := 20000 }),
                             (Pubkey.key 11,
                               { owner := Pubkey.key 2, mint := Pubkey.key 5, amount := 7 }),
                             (Pubkey.key 12,
                               { owner := Pubkey.key 3, mint := Pubkey.key 5, amount := 3 })] }
              (Instr.transferWithFeeI (Pubkey.key 1) (Pubkey.key 10) (Pubkey.key 11)
                (Pubkey.key 12) TOKEN_PROGRAM_ID 10000))
      = Except.map (fun p => (p.1.accounts, p.2))
          (exec { config := none,
                  accounts := [(Pubkey.key 10,
                                 { owner := Pubkey.key 1, mint := Pubkey.key 5, amount := 20000 }),
                               (Pubkey.key 11,
                                 { owner := Pubkey.key 2, mint := Pubkey.key 5, amount := 7 }),
                               (Pubkey.key 12,
                                 { owner := Pubkey.key 3, mint := Pubkey.key 5, amount := 3 })] }
                (Instr.transferWithFeeI (Pubkey.key 1) (Pubkey.key 10) (Pubkey.key 11)
                  (Pubkey.key 12) TOKEN_PROGRAM_ID 10000))
    ∧ PROTOCOL_FEE_BPS = 100 :=
  C10_config_independent
    { config := some { authority := Pubkey.key 7, fee_recipient := Pubkey.key 8,
                       fee_bps := 7777, bump := 3 },
      accounts := [(Pubkey.key 10,
                     { owner := Pubkey.key 1, mint := Pubkey.key 5, amount := 20000 }),
                   (Pubkey.key 11,
                     { owner := Pubkey.key 2, mint := Pubkey.key 5, amount := 7 }),
                   (Pubkey.key 12,
                     { owner := Pubkey.key 3, mint := Pubkey.key 5, amount := 3 })] }
    { config := none,
      accounts := [(Pubkey.key 10,
                     { owner := Pubkey.key 1, mint := Pubkey.key 5, amount := 20000 }),
                   (Pubkey.key 11,
                     { owner := Pubkey.key 2, mint := Pubkey.key 5, amount := 7 }),
                   (Pubkey.key 12,
                     { owner := Pubkey.key 3, mint := Pubkey.key 5, amount := 3 })] }
    rfl (Pubkey.key 1) (Pubkey.key 10) (Pubkey.key 11) (Pubkey.key 12)
    TOKEN_PROGRAM_ID 10000
